/-
Verification of the metric-analysis / change-detection / approval core of
`facebook-mcp-server.js` (Facebook Ads MCP server).

Shallow embedding conventions:
* JS numbers are modelled by `JSVal`: a finite rational, `Infinity`,
  `-Infinity`, or `NaN` (signed zero is identified with zero; the claims at
  issue never distinguish them).
* A metrics field as it arrives over the wire is an `MVal`: absent
  (`undefined`), a number, the empty string, or a non-empty string carrying
  its `parseFloat` result (`none` when the string has no numeric prefix, in
  which case `parseFloat` yields `NaN`).
* `parseFloat(x || 0)` — the coercion used throughout `analyzeMetrics` —
  is `MVal.coerce`.
* JS objects used as dictionaries (`campaignState`, `pendingApprovals`)
  are partial maps `String → Option _`.
* Timestamps are abstract `Nat` ticks; the wall clock is passed explicitly.
-/
import Mathlib

namespace FacebookMcp

/-- A JavaScript number: finite rational, `Infinity`, `-Infinity`, or `NaN`. -/
inductive JSVal where
  | fin (q : ℚ)
  | inf
  | negInf
  | nan
deriving DecidableEq, Repr

namespace JSVal

/-- JS `<` against a finite constant: `NaN < x` and `Infinity < x` are false,
`-Infinity < x` is true. -/
def lt : JSVal → ℚ → Bool
  | fin q, x => decide (q < x)
  | inf, _ => false
  | negInf, _ => true
  | nan, _ => false

/-- JS `>` against a finite constant: `NaN > x` and `-Infinity > x` are false,
`Infinity > x` is true. -/
def gt : JSVal → ℚ → Bool
  | fin q, x => decide (x < q)
  | inf, _ => true
  | negInf, _ => false
  | nan, _ => false

/-- IEEE subtraction on the modelled values. -/
def sub : JSVal → JSVal → JSVal
  | nan, _ => nan
  | _, nan => nan
  | inf, inf => nan
  | inf, _ => inf
  | negInf, negInf => nan
  | negInf, _ => negInf
  | fin _, inf => negInf
  | fin _, negInf => inf
  | fin a, fin b => fin (a - b)

/-- IEEE division on the modelled values (single zero: `c/0` is `Infinity`,
`-Infinity` or `NaN` by the sign of `c`). -/
def div : JSVal → JSVal → JSVal
  | nan, _ => nan
  | _, nan => nan
  | inf, inf => nan
  | inf, negInf => nan
  | negInf, inf => nan
  | negInf, negInf => nan
  | inf, fin b => if b < 0 then negInf else inf
  | negInf, fin b => if b < 0 then inf else negInf
  | fin _, inf => fin 0
  | fin _, negInf => fin 0
  | fin a, fin b =>
      if b = 0 then
        if 0 < a then inf else if a < 0 then negInf else nan
      else fin (a / b)

/-- Multiplication by the positive constant 100. -/
def mul100 : JSVal → JSVal
  | fin a => fin (a * 100)
  | inf => inf
  | negInf => negInf
  | nan => nan

/-- JS `Math.abs`. -/
def abs : JSVal → JSVal
  | fin a => fin |a|
  | inf => inf
  | negInf => inf
  | nan => nan

end JSVal

/-- Formula `((current - previous) / previous) * 100`, the percentage change of
`detectSignificantChanges` (src lines 67–68), with IEEE special values. -/
def pctChange (current previous : JSVal) : JSVal :=
  (JSVal.sub current previous).div previous |>.mul100

/-- A raw metrics field as delivered in a JSON payload: `undefined`, a finite
number, the empty string, or a non-empty string `content` whose `parseFloat`
result is `parsed` (`none` modelling an unparseable string, i.e. `NaN`). -/
inductive MVal where
  | absent
  | num (q : ℚ)
  | emptyStr
  | strv (content : String) (parsed : Option ℚ)
deriving DecidableEq, Repr

namespace MVal

/-- JS truthiness of a field value: `undefined`, `0` and `""` are falsy. -/
def truthy : MVal → Bool
  | absent => false
  | num q => decide (q ≠ 0)
  | emptyStr => false
  | strv _ _ => true

/-- Model of `parseFloat(x || 0)`: falsy values are first replaced by `0`, and an
unparseable non-empty string parses to `NaN`. -/
def coerce : MVal → JSVal
  | absent => .fin 0
  | num q => .fin q
  | emptyStr => .fin 0
  | strv _ (some p) => .fin p
  | strv _ none => .nan

/-- Model of `parseFloat(x)` with no `|| 0` default (used on `context.campaignBudget`):
`parseFloat(undefined)` and `parseFloat("")` are `NaN`. -/
def parseFloatRaw : MVal → JSVal
  | absent => .nan
  | num q => .fin q
  | emptyStr => .nan
  | strv _ (some p) => .fin p
  | strv _ none => .nan

end MVal

/-- Left-pad a numeral string with zeros to `k` characters. -/
def padZeros (s : String) (k : Nat) : String :=
  if s.length < k then String.mk (List.replicate (k - s.length) '0') ++ s else s

/-- Render a rational the way JS renders the corresponding exact decimal
number: integers without a point, finite decimals with the shortest expansion
(computed directly on numerator and denominator). Rationals with no short
decimal expansion cannot reach the rendered messages that the claims mention;
they fall back to a fraction form. -/
def renderQ (q : ℚ) : String :=
  let sign := if q.num < 0 then "-" else ""
  match (List.range 21).find? (fun k => (mkRat (q.num.natAbs * 10 ^ k) q.den).den = 1) with
  | some 0 => sign ++ toString q.num.natAbs
  | some k =>
      let n := (mkRat (q.num.natAbs * 10 ^ k) q.den).num.toNat
      sign ++ toString (n / 10 ^ k) ++ "." ++ padZeros (toString (n % 10 ^ k)) k
  | none => sign ++ toString q.num.natAbs ++ "/" ++ toString q.den

/-- Round half away from zero to `d` decimal digits and render: the model of
JS `Number.prototype.toFixed` on the rationals the program manipulates. The
rounding `⌊|q|·10^d + 1/2⌋` is computed directly on numerator and denominator:
`scaled = |q|·10^d` and `⌊scaled + 1/2⌋ = (2·scaled.num + scaled.den) / (2·scaled.den)`
(integer division of nonnegative operands). -/
def ratToFixed (q : ℚ) (d : Nat) : String :=
  let sign := if q.num < 0 then "-" else ""
  let scaled := mkRat (q.num.natAbs * 10 ^ d) q.den
  let n := ((2 * scaled.num + scaled.den) / (2 * (scaled.den : ℤ))).toNat
  if d = 0 then sign ++ toString n
  else sign ++ toString (n / 10 ^ d) ++ "." ++ padZeros (toString (n % 10 ^ d)) d

namespace JSVal

/-- JS `x.toFixed(2)` on a JS value. -/
def toFixed2 : JSVal → String
  | fin q => ratToFixed q 2
  | inf => "Infinity"
  | negInf => "-Infinity"
  | nan => "NaN"

/-- JS `x.toFixed(0)` on a JS value. -/
def toFixed0 : JSVal → String
  | fin q => ratToFixed q 0
  | inf => "Infinity"
  | negInf => "-Infinity"
  | nan => "NaN"

/-- JS string interpolation of a raw number (template literal `${x}`). -/
def render : JSVal → String
  | fin q => renderQ q
  | inf => "Infinity"
  | negInf => "-Infinity"
  | nan => "NaN"

/-- JS `Math.min(v, k)` against a finite constant. -/
def minC : JSVal → ℚ → JSVal
  | fin a, k => fin (min a k)
  | inf, k => fin k
  | negInf, _ => negInf
  | nan, _ => nan

/-- Multiplication by the positive constant 2. -/
def mul2 : JSVal → JSVal
  | fin a => fin (a * 2)
  | inf => inf
  | negInf => negInf
  | nan => nan

end JSVal

namespace MVal

/-- JS string interpolation of a raw field value (template literal `${x}`). -/
def render : MVal → String
  | absent => "undefined"
  | num q => renderQ q
  | emptyStr => ""
  | strv c _ => c

end MVal

/-! Thresholds (src lines 18–24). -/

structure CtrThresholds where
  good : ℚ
  average : ℚ
  critical : ℚ

structure CpmThresholds where
  good : ℚ
  average : ℚ
  critical : ℚ

structure FrequencyThresholds where
  optimal : ℚ
  warning : ℚ
  critical : ℚ

structure SpendThresholds where
  minForAnalysis : ℚ
  dailyLimit : ℚ

structure RoasThresholds where
  good : ℚ
  average : ℚ
  poor : ℚ

structure Thresholds where
  ctr : CtrThresholds
  cpm : CpmThresholds
  frequency : FrequencyThresholds
  spend : SpendThresholds
  roas : RoasThresholds

/-- The `THRESHOLDS` constant of the source: ctr `{good: 1.5, average: 0.8,
critical: 0.5}`, cpm `{good: 30, average: 50, critical: 75}`, frequency
`{optimal: 3, warning: 5, critical: 7}`, spend `{minForAnalysis: 10,
dailyLimit: 500}`, roas `{good: 3, average: 2, poor: 1.5}` (non-integer
constants written as explicit fractions). -/
def THRESHOLDS : Thresholds :=
  { ctr := ⟨mkRat 3 2, mkRat 4 5, mkRat 1 2⟩
    cpm := ⟨30, 50, 75⟩
    frequency := ⟨3, 5, 7⟩
    spend := ⟨10, 500⟩
    roas := ⟨3, 2, mkRat 3 2⟩ }

/-! Metrics analyzer (src lines 112–209). -/

/-- The raw metrics snapshot passed to `analyzeMetrics`: each field is a raw
JSON value; `purchase_roas` is an optional array whose entries are modelled by
their `value` field. -/
structure Metrics where
  ctr : MVal := .absent
  cpm : MVal := .absent
  spend : MVal := .absent
  frequency : MVal := .absent
  purchase_roas : Option (List MVal) := none
deriving DecidableEq, Repr

/-- The `context` argument of `analyzeMetrics` (only `campaignBudget` is
read). -/
structure Ctx where
  campaignBudget : MVal := .absent
deriving DecidableEq, Repr

/-- A notification candidate pushed by `analyzeMetrics`: absent
`requiresApproval` is falsy, hence modelled by the default `false`. -/
structure Notif where
  priority : String
  message : String
  requiresApproval : Bool := false
  suggestedAction : Option String := none
  suggestedValue : Option JSVal := none
deriving DecidableEq, Repr

/-- The `analysis` record built by `analyzeMetrics`. -/
structure Analysis where
  issues : List String
  recommendations : List String
  notifications : List Notif
  score : ℤ
  status : String
deriving DecidableEq, Repr

/-- The initial `analysis` object (src lines 113–119). -/
def analysisInit : Analysis :=
  { issues := [], recommendations := [], notifications := [], score := 100
    status := "optimal" }

/-- CTR analysis step (src lines 121–153). -/
def ctrStep (metrics : Metrics) (context : Ctx) (a : Analysis) : Analysis :=
  let ctr := metrics.ctr.coerce
  if ctr.lt THRESHOLDS.ctr.critical then
    let a :=
      { a with
        issues := a.issues ++ ["Critical CTR: " ++ ctr.toFixed2 ++ "%"]
        recommendations := a.recommendations ++
          ["🚨 Immediate action needed: Pause and revise creative"]
        score := a.score - 40
        status := "critical" }
    if metrics.spend.coerce.gt 50 then
      { a with
        notifications := a.notifications ++
          [{ priority := "critical"
             message := "Critical performance alert: CTR " ++ ctr.toFixed2 ++
               "% with $" ++ metrics.spend.render ++ " spent"
             requiresApproval := true
             suggestedAction := some "PAUSE_CAMPAIGN" }] }
    else a
  else if ctr.lt THRESHOLDS.ctr.average then
    { a with
      issues := a.issues ++ ["Low CTR: " ++ ctr.toFixed2 ++ "%"]
      recommendations := a.recommendations ++
        ["Test new ad creative with stronger hooks"]
      score := a.score - 25
      status := "needs_improvement" }
  else if ctr.gt THRESHOLDS.ctr.good then
    let a :=
      { a with
        recommendations := a.recommendations ++
          ["🎯 Excellent CTR (" ++ ctr.toFixed2 ++ "%) - Scale this winner"] }
    if context.campaignBudget.truthy &&
        context.campaignBudget.parseFloatRaw.lt 100 then
      { a with
        notifications := a.notifications ++
          [{ priority := "success"
             message := "High performer alert: " ++ ctr.toFixed2 ++
               "% CTR - Ready to scale"
             suggestedAction := some "INCREASE_BUDGET"
             suggestedValue :=
               some (context.campaignBudget.parseFloatRaw.mul2.minC 200) }] }
    else a
  else a

/-- CPM analysis step (src lines 155–170). -/
def cpmStep (metrics : Metrics) (a : Analysis) : Analysis :=
  let cpm := metrics.cpm.coerce
  if cpm.gt THRESHOLDS.cpm.critical then
    { a with
      issues := a.issues ++ ["Critical CPM: $" ++ cpm.toFixed2 ++ " AUD"]
      recommendations := a.recommendations ++
        ["🚨 CPMs too high - Pause and revise targeting"]
      score := a.score - 30
      notifications := a.notifications ++
        [{ priority := "urgent"
           message := "High CPM alert: $" ++ cpm.toFixed2 ++ " AUD"
           suggestedAction := some "REVIEW_TARGETING" }] }
  else if cpm.gt THRESHOLDS.cpm.average then
    { a with
      issues := a.issues ++ ["High CPM: $" ++ cpm.toFixed2 ++ " AUD"]
      recommendations := a.recommendations ++
        ["Broaden targeting or test new audiences"]
      score := a.score - 20 }
  else a

/-- Frequency analysis step (src lines 172–188). -/
def frequencyStep (metrics : Metrics) (a : Analysis) : Analysis :=
  let frequency := metrics.frequency.coerce
  if frequency.gt THRESHOLDS.frequency.critical then
    { a with
      issues := a.issues ++ ["Critical frequency: " ++ frequency.toFixed2]
      recommendations := a.recommendations ++
        ["🚨 Severe ad fatigue - Refresh creative immediately"]
      score := a.score - 30
      notifications := a.notifications ++
        [{ priority := "urgent"
           message := "Ad fatigue alert: Frequency " ++ frequency.toFixed2
           requiresApproval := true
           suggestedAction := some "REFRESH_CREATIVE" }] }
  else if frequency.gt THRESHOLDS.frequency.warning then
    { a with
      issues := a.issues ++ ["High frequency: " ++ frequency.toFixed2]
      recommendations := a.recommendations ++
        ["Audience fatigue emerging - Plan creative refresh"]
      score := a.score - 15 }
  else a

/-- ROAS analysis step (src lines 190–200): the branch runs whenever
`purchase_roas` is present (a JS array is always truthy, even when empty), and
reads `purchase_roas[0]?.value || 0`. -/
def roasStep (metrics : Metrics) (a : Analysis) : Analysis :=
  match metrics.purchase_roas with
  | none => a
  | some entries =>
    let roas := (entries.head?.getD .absent).coerce
    if roas.lt THRESHOLDS.roas.poor then
      { a with
        issues := a.issues ++ ["Poor ROAS: " ++ roas.toFixed2 ++ "x"]
        recommendations := a.recommendations ++
          ["Review product-market fit and pricing"]
        score := a.score - 20 }
    else if roas.gt THRESHOLDS.roas.good then
      { a with
        recommendations := a.recommendations ++
          ["💰 Strong ROAS (" ++ roas.toFixed2 ++ "x) - Increase investment"] }
    else a

/-- Steps 1–4 of `analyzeMetrics` in source order (everything before the final
status override). -/
def analyzeSteps (metrics : Metrics) (context : Ctx) : Analysis :=
  roasStep metrics
    (frequencyStep metrics (cpmStep metrics (ctrStep metrics context analysisInit)))

/-- The final status override (src lines 202–206): a score-based cascade that
falls back to the provisional status. -/
def finalStatus (score : ℤ) (provisional : String) : String :=
  if score < 40 then "critical"
  else if score < 60 then "poor"
  else if score < 80 then "needs_improvement"
  else if score ≥ 95 then "excellent"
  else provisional

/-- Embeds `analyzeMetrics(metrics, context)` (src lines 112–209). -/
def analyzeMetrics (metrics : Metrics) (context : Ctx) : Analysis :=
  let a := analyzeSteps metrics context
  { a with status := finalStatus a.score a.status }

/-- Modelled from the spec (§8, for the refinement claim): the single-phase
status function of the final score alone — critical below 40, poor on
[40,60), needs_improvement on [60,80), optimal on [80,95), excellent from 95
up. -/
def specStatusOfScore (score : ℤ) : String :=
  if score < 40 then "critical"
  else if score < 60 then "poor"
  else if score < 80 then "needs_improvement"
  else if score < 95 then "optimal"
  else "excellent"

/-! Change detector (src lines 56–109). -/

/-- The `currentMetrics` argument of `detectSignificantChanges`: the call
sites pass `parseFloat(... || 0)` results, so fields are JS numbers (possibly
`NaN`). -/
structure CurrentMetrics where
  ctr : JSVal
  cpm : JSVal
  spend : JSVal
  frequency : JSVal
deriving DecidableEq, Repr

/-- One stored entry of `campaignState`: the spread of the current metrics
plus bookkeeping fields. -/
structure CampaignEntry where
  ctr : JSVal
  cpm : JSVal
  spend : JSVal
  frequency : JSVal
  lastChecked : Nat
  previousCtr : Option JSVal := none
  previousCpm : Option JSVal := none
deriving DecidableEq, Repr

/-- The `campaignState` object, a dictionary keyed by campaign id. -/
def CampaignStateMap : Type := String → Option CampaignEntry

/-- JS property assignment `campaignState[id] = entry`. -/
def setCampaign (st : CampaignStateMap) (id : String) (e : CampaignEntry) :
    CampaignStateMap :=
  fun x => if x = id then some e else st x

/-- A change event pushed by `detectSignificantChanges`. -/
structure ChangeEvent where
  type : String
  priority : String
  message : String
  recommendation : String
deriving DecidableEq, Repr

/-- Embeds `detectSignificantChanges(campaignId, currentMetrics)` (src lines
56–109): returns the updated `campaignState` together with the returned value
(`null` = `none`). `now` is the abstract wall-clock tick for `lastChecked`. -/
def detectSignificantChanges (campaignId : String)
    (currentMetrics : CurrentMetrics) (now : Nat) (campaignState : CampaignStateMap) :
    CampaignStateMap × Option (List ChangeEvent) :=
  match campaignState campaignId with
  | none =>
      (setCampaign campaignState campaignId
        { ctr := currentMetrics.ctr, cpm := currentMetrics.cpm
          spend := currentMetrics.spend, frequency := currentMetrics.frequency
          lastChecked := now }, none)
  | some previous =>
      let ctrChange := pctChange currentMetrics.ctr previous.ctr
      let cpmChange := pctChange currentMetrics.cpm previous.cpm
      let changes : List ChangeEvent :=
        (if ctrChange.lt (-30) && currentMetrics.ctr.lt THRESHOLDS.ctr.average then
          [{ type := "CTR_CRASH"
             priority := "critical"
             message := "🚨 CTR crashed " ++ ctrChange.abs.toFixed0 ++
               "% from " ++ previous.ctr.render ++ "% to " ++
               currentMetrics.ctr.render ++ "%"
             recommendation := "Pause campaign and review creative immediately" }]
        else []) ++
        (if cpmChange.gt 50 && currentMetrics.cpm.gt THRESHOLDS.cpm.average then
          [{ type := "CPM_SPIKE"
             priority := "urgent"
             message := "⚠️ CPM increased " ++ cpmChange.toFixed0 ++
               "% to $" ++ currentMetrics.cpm.render
             recommendation := "Review audience targeting and competition" }]
        else []) ++
        (if ctrChange.gt 50 && currentMetrics.ctr.gt THRESHOLDS.ctr.good then
          [{ type := "PERFORMANCE_BOOST"
             priority := "success"
             message := "🚀 CTR improved " ++ ctrChange.toFixed0 ++
               "% to " ++ currentMetrics.ctr.render ++ "%"
             recommendation := "Consider increasing budget to scale" }]
        else [])
      let st' := setCampaign campaignState campaignId
        { ctr := currentMetrics.ctr, cpm := currentMetrics.cpm
          spend := currentMetrics.spend, frequency := currentMetrics.frequency
          lastChecked := now
          previousCtr := some previous.ctr
          previousCpm := some previous.cpm }
      (st', if changes.length > 0 then some changes else none)

/-! Approval state machine (src lines 272–290 and 964–1093). -/

/-- One campaign reference inside an approval payload. -/
structure CampaignRef where
  id : String
  name : String
deriving DecidableEq, Repr

/-- The `data` payload of an approval (the fields the `PAUSE_CAMPAIGNS`
executor reads). -/
structure ApprovalData where
  campaigns : List CampaignRef := []
  estimatedSavings : String := ""
deriving DecidableEq, Repr

/-- An entry of the `pendingApprovals` map. -/
structure Approval where
  action : String
  data : ApprovalData
  createdAt : Nat
  expiresAt : Nat
  status : String
  processedAt : Option Nat := none
deriving DecidableEq, Repr

/-- The `pendingApprovals` map. -/
def ApprovalMap : Type := String → Option Approval

/-- JS `pendingApprovals.set(id, a)`. -/
def setApproval (m : ApprovalMap) (id : String) (a : Approval) : ApprovalMap :=
  fun x => if x = id then some a else m x

/-- One per-campaign result row pushed by the `PAUSE_CAMPAIGNS` executor. -/
structure PauseResult where
  campaignId : String
  campaignName : String
  status : String
  success : Bool
  error : Option String := none
deriving DecidableEq, Repr

/-- The payload returned by the `process_approval` tool handler: either one of
its structured error payloads, or the success response. -/
inductive PAOut where
  | errRequired
  | errNotFound (approvalId : String)
  | errAlreadyProcessed (approvalId status : String)
  | errExpired (approvalId : String) (expiredAt : Nat)
  | completed (approvalId act : String) (results : List PauseResult)
deriving DecidableEq, Repr

/-- The `error` field of the JSON payload that each `PAOut` renders to, with
the literal strings of the source (src lines 978, 987, 995, 1010). -/
def PAOut.errorField : PAOut → Option String
  | .errRequired => some "Approval ID and action are required"
  | .errNotFound _ => some "Approval not found or expired"
  | .errAlreadyProcessed _ _ => some "Approval already processed"
  | .errExpired _ _ => some "Approval expired"
  | .completed _ _ _ => none

/-- JS `String.prototype.toUpperCase` (character-wise ASCII upcasing, which is
all the handler's inputs exercise). -/
def jsToUpperCase (s : String) : String :=
  String.mk (s.data.map Char.toUpper)

/-- The `process_approval` tool handler body (src lines 975–1078), with the
external `campaign.update({status:'PAUSED'})` collaborator passed in as
`updateCampaign` and the wall clock as `now`. Returns the updated
`pendingApprovals` map and the produced payload. -/
def processApproval (approvals : ApprovalMap) (approvalId action : String)
    (now : Nat) (updateCampaign : String → Except String Unit) :
    ApprovalMap × PAOut :=
  let act := jsToUpperCase action
  if approvalId = "" ∨ act = "" then (approvals, .errRequired)
  else
    match approvals approvalId with
    | none => (approvals, .errNotFound approvalId)
    | some approval =>
      if approval.status ≠ "pending" then
        (approvals, .errAlreadyProcessed approvalId approval.status)
      else if now > approval.expiresAt then
        (setApproval approvals approvalId { approval with status := "expired" },
         .errExpired approvalId approval.expiresAt)
      else if act = "APPROVE" then
        let results : List PauseResult :=
          if approval.action = "PAUSE_CAMPAIGNS" then
            approval.data.campaigns.map fun c =>
              match updateCampaign c.id with
              | .ok _ =>
                  { campaignId := c.id, campaignName := c.name
                    status := "PAUSED", success := true }
              | .error e =>
                  { campaignId := c.id, campaignName := c.name
                    status := "FAILED", success := false, error := some e }
          else []
        (setApproval approvals approvalId
          { approval with status := "approved", processedAt := some now },
         .completed approvalId act results)
      else if act = "REJECT" then
        (setApproval approvals approvalId
          { approval with status := "rejected", processedAt := some now },
         .completed approvalId act [])
      else (approvals, .completed approvalId act [])

/-! State persistence and the tool wrapper (src lines 51–53, 322–433). -/

/-- Embeds `saveState()` (src lines 51–53): a bare `await fs.writeFile(...)` with no
`try`/`catch`, so the write's outcome — passed in as `write` — is returned
unchanged and a rejection propagates to the caller. -/
def saveState (write : Except String Unit) : Except String Unit :=
  write

/-- The tool-handler wrapper shared by every tool (e.g. `get_account_overview`,
src lines 322–433): `try { return payload } catch (e) { return errorPayload e }
finally { await saveState() }`. Per JS semantics, the `try`/`catch` first
settles on a completion value, then the `finally` block runs; if
`await saveState()` rejects, that rejection replaces the completion. -/
def runTool {α : Type} (body : Except String α) (errorPayload : String → α)
    (write : Except String Unit) : Except String α :=
  let completion : α :=
    match body with
    | .ok p => p
    | .error e => errorPayload e
  match saveState write with
  | .error e => .error e
  | .ok _ => .ok completion

/-! Helper lemmas. -/

/-- Comparing a value with itself: the percentage change of an unchanged
metric is `0` (finite non-zero baseline) or `NaN` (zero or non-finite
baseline); it is never a non-zero finite value. -/
theorem pctChange_self (v : JSVal) :
    pctChange v v = .fin 0 ∨ pctChange v v = .nan := by
  cases v with
  | fin q =>
    by_cases hq : q = 0
    · right
      subst hq
      simp [pctChange, JSVal.sub, JSVal.div, JSVal.mul100]
    · left
      simp [pctChange, JSVal.sub, JSVal.div, JSVal.mul100, hq]
  | inf => right; rfl
  | negInf => right; rfl
  | nan => right; rfl

/-- If a JS value is not above `a`, it is not above any larger bound. -/
theorem JSVal.gt_false_mono {v : JSVal} {a b : ℚ} (h : v.gt a = false)
    (hab : a ≤ b) : v.gt b = false := by
  cases v with
  | fin q =>
    simp only [JSVal.gt, decide_eq_false_iff_not, not_lt] at h ⊢
    linarith
  | inf => simp [JSVal.gt] at h
  | negInf => rfl
  | nan => rfl

/-- If a JS value is above `a`, it is not below any bound at most `a`. -/
theorem JSVal.lt_false_of_gt {v : JSVal} {a b : ℚ} (h : v.gt a = true)
    (hba : b ≤ a) : v.lt b = false := by
  cases v with
  | fin q =>
    simp only [JSVal.gt, decide_eq_true_eq] at h
    simp only [JSVal.lt, decide_eq_false_iff_not, not_lt]
    linarith
  | inf => rfl
  | negInf => simp [JSVal.gt] at h
  | nan => simp [JSVal.gt] at h

/-- The CPM step never touches the provisional status. -/
theorem cpmStep_status (m : Metrics) (a : Analysis) :
    (cpmStep m a).status = a.status := by
  simp only [cpmStep]
  split_ifs <;> rfl

/-- The CPM step never increases the score. -/
theorem cpmStep_score_le (m : Metrics) (a : Analysis) :
    (cpmStep m a).score ≤ a.score := by
  simp only [cpmStep]
  split_ifs
  all_goals
    first
    | (dsimp only; omega)
    | omega

/-- The frequency step never touches the provisional status. -/
theorem frequencyStep_status (m : Metrics) (a : Analysis) :
    (frequencyStep m a).status = a.status := by
  simp only [frequencyStep]
  split_ifs <;> rfl

/-- The frequency step never increases the score. -/
theorem frequencyStep_score_le (m : Metrics) (a : Analysis) :
    (frequencyStep m a).score ≤ a.score := by
  simp only [frequencyStep]
  split_ifs
  all_goals
    first
    | (dsimp only; omega)
    | omega

/-- The ROAS step never touches the provisional status. -/
theorem roasStep_status (m : Metrics) (a : Analysis) :
    (roasStep m a).status = a.status := by
  cases hp : m.purchase_roas with
  | none =>
    unfold roasStep
    rw [hp]
  | some l =>
    unfold roasStep
    rw [hp]
    dsimp only
    split_ifs <;> rfl

/-- The ROAS step never increases the score. -/
theorem roasStep_score_le (m : Metrics) (a : Analysis) :
    (roasStep m a).score ≤ a.score := by
  cases hp : m.purchase_roas with
  | none =>
    unfold roasStep
    rw [hp]
  | some l =>
    unfold roasStep
    rw [hp]
    dsimp only
    split_ifs
    all_goals
      first
      | (dsimp only; omega)
      | omega

/-- On the initial analysis record, the CTR step either leaves the status
"optimal" with the score at 100, or deducts at least 25 points (so the score
is at most 75). -/
theorem ctrStep_init_cases (m : Metrics) (ctx : Ctx) :
    ((ctrStep m ctx analysisInit).status = "optimal" ∧
      (ctrStep m ctx analysisInit).score = 100) ∨
    (ctrStep m ctx analysisInit).score ≤ 75 := by
  unfold ctrStep analysisInit
  dsimp only
  split_ifs <;> first | (right; dsimp only; omega) | (left; exact ⟨rfl, rfl⟩)

/-- After steps 1–4 the analysis either still has the default "optimal"
status, or its score is at most 75 — a provisional CTR status never coexists
with a score of 80 or more. -/
theorem analyzeSteps_cases (m : Metrics) (ctx : Ctx) :
    (analyzeSteps m ctx).status = "optimal" ∨ (analyzeSteps m ctx).score ≤ 75 := by
  unfold analyzeSteps
  rcases ctrStep_init_cases m ctx with ⟨hs, _⟩ | hsc
  · left
    rw [roasStep_status, frequencyStep_status, cpmStep_status, hs]
  · right
    have h1 := roasStep_score_le m (frequencyStep m (cpmStep m (ctrStep m ctx analysisInit)))
    have h2 := frequencyStep_score_le m (cpmStep m (ctrStep m ctx analysisInit))
    have h3 := cpmStep_score_le m (ctrStep m ctx analysisInit)
    omega

/-- The CTR step leaves the record unchanged when none of its three branch
conditions holds (which is also the case when the parsed CTR is `NaN`). -/
theorem ctrStep_skip (m : Metrics) (ctx : Ctx) (a : Analysis)
    (h1 : m.ctr.coerce.lt THRESHOLDS.ctr.critical = false)
    (h2 : m.ctr.coerce.lt THRESHOLDS.ctr.average = false)
    (h3 : m.ctr.coerce.gt THRESHOLDS.ctr.good = false) :
    ctrStep m ctx a = a := by
  unfold ctrStep
  dsimp only
  rw [h1, h2, h3]
  rfl

/-- The CPM step leaves the record unchanged when neither branch fires. -/
theorem cpmStep_skip (m : Metrics) (a : Analysis)
    (h1 : m.cpm.coerce.gt THRESHOLDS.cpm.critical = false)
    (h2 : m.cpm.coerce.gt THRESHOLDS.cpm.average = false) :
    cpmStep m a = a := by
  unfold cpmStep
  dsimp only
  rw [h1, h2]
  rfl

/-- The frequency step leaves the record unchanged when neither branch
fires. -/
theorem frequencyStep_skip (m : Metrics) (a : Analysis)
    (h1 : m.frequency.coerce.gt THRESHOLDS.frequency.critical = false)
    (h2 : m.frequency.coerce.gt THRESHOLDS.frequency.warning = false) :
    frequencyStep m a = a := by
  unfold frequencyStep
  dsimp only
  rw [h1, h2]
  rfl

/-- The ROAS step leaves the record unchanged when `purchase_roas` is
absent. -/
theorem roasStep_none (m : Metrics) (a : Analysis)
    (hp : m.purchase_roas = none) : roasStep m a = a := by
  unfold roasStep
  rw [hp]

/-- The ROAS step leaves the record unchanged when the parsed ROAS is neither
below the poor threshold nor above the good one. -/
theorem roasStep_mid (m : Metrics) (a : Analysis) (l : List MVal)
    (hp : m.purchase_roas = some l)
    (hl : (l.head?.getD .absent).coerce.lt THRESHOLDS.roas.poor = false)
    (hg : (l.head?.getD .absent).coerce.gt THRESHOLDS.roas.good = false) :
    roasStep m a = a := by
  unfold roasStep
  rw [hp]
  dsimp only
  rw [hl, hg]
  rfl

/-- In the third (high-CTR) branch, the CTR step keeps status and score and
appends exactly the scale-up recommendation. -/
theorem ctrStep_good (m : Metrics) (ctx : Ctx) (a : Analysis)
    (h1 : m.ctr.coerce.lt THRESHOLDS.ctr.critical = false)
    (h2 : m.ctr.coerce.lt THRESHOLDS.ctr.average = false)
    (h3 : m.ctr.coerce.gt THRESHOLDS.ctr.good = true) :
    (ctrStep m ctx a).status = a.status ∧
    (ctrStep m ctx a).score = a.score ∧
    (ctrStep m ctx a).recommendations = a.recommendations ++
      ["🎯 Excellent CTR (" ++ m.ctr.coerce.toFixed2 ++ "%) - Scale this winner"] := by
  unfold ctrStep
  dsimp only
  rw [h1, h2, h3]
  by_cases hb : (ctx.campaignBudget.truthy &&
      ctx.campaignBudget.parseFloatRaw.lt 100) = true <;>
    simp [hb]

/-! Claims. -/

/-- C1: for every metrics snapshot and context, `analyzeMetrics` applies a
final, unconditional status override based on the accumulated score: below 40
the status is "critical", else below 60 "poor", else below 80
"needs_improvement", else at least 95 "excellent", and otherwise the
provisional status computed by steps 1–4 (which defaults to "optimal") stands;
the override leaves the score itself untouched. -/
theorem analyzeMetrics_final_status_override (m : Metrics) (ctx : Ctx) :
    (analyzeMetrics m ctx).score = (analyzeSteps m ctx).score ∧
    (analyzeMetrics m ctx).status =
      (if (analyzeMetrics m ctx).score < 40 then "critical"
       else if (analyzeMetrics m ctx).score < 60 then "poor"
       else if (analyzeMetrics m ctx).score < 80 then "needs_improvement"
       else if (analyzeMetrics m ctx).score ≥ 95 then "excellent"
       else (analyzeSteps m ctx).status) :=
  ⟨rfl, rfl⟩

/-- C2: on the metrics `{ctr: 0.4, spend: 60}` with no context,
`analyzeMetrics` reports the issue "Critical CTR: 0.40%", score 60, status
"needs_improvement" (the final override, not the provisional "critical"), and
exactly one notification — critical priority, `requiresApproval`, suggesting
`PAUSE_CAMPAIGN` because the spend 60 exceeds 50. -/
theorem analyzeMetrics_example_ctr04_spend60 :
    "Critical CTR: 0.40%" ∈
      (analyzeMetrics { ctr := .num (mkRat 2 5), spend := .num 60 } {}).issues ∧
    (analyzeMetrics { ctr := .num (mkRat 2 5), spend := .num 60 } {}).score = 60 ∧
    (analyzeMetrics { ctr := .num (mkRat 2 5), spend := .num 60 } {}).status =
      "needs_improvement" ∧
    (analyzeMetrics { ctr := .num (mkRat 2 5), spend := .num 60 } {}).notifications =
      [{ priority := "critical"
         message := "Critical performance alert: CTR 0.40% with $60 spent"
         requiresApproval := true
         suggestedAction := some "PAUSE_CAMPAIGN" }] := by
  refine ⟨?_, ?_, ?_, ?_⟩ <;> decide

/-- C8: the claim says a persistence failure is swallowed and the tool's
payload is unaffected; in the code `saveState` has no `try`/`catch` and runs
in the handler's `finally` block, so a failing write replaces whatever payload
the tool produced and propagates to the caller. -/
theorem runTool_persistence_failure_propagates {α : Type}
    (body : Except String α) (errorPayload : String → α) (e : String) :
    runTool body errorPayload (.error e) = .error e :=
  rfl

/-- C3: change detection is idempotent — once `detectSignificantChanges` has
stored a metrics value for a campaign id (as first-observation baseline or as
an update), a second call with identical values emits no CTR_CRASH, CPM_SPIKE
or PERFORMANCE_BOOST event and returns null. -/
theorem detectSignificantChanges_idempotent (id : String) (m : CurrentMetrics)
    (n1 n2 : Nat) (st : CampaignStateMap) :
    (detectSignificantChanges id m n2
      (detectSignificantChanges id m n1 st).1).2 = none := by
  rcases pctChange_self m.ctr with hc | hc <;>
    rcases pctChange_self m.cpm with hp | hp <;>
    cases hst : st id <;>
    simp [detectSignificantChanges, hst, setCampaign, hc, hp, JSVal.lt, JSVal.gt]

/-- C7: CTR_CRASH requires both sub-conditions — a change percentage below
-30 and a current CTR below the 0.8 average threshold. With a stored prior
CTR of 2.0, a current CTR of 1.3 (a -35% change) and the CPM unchanged, no
event fires and the call returns null. -/
theorem detectSignificantChanges_crash_needs_both_conditions
    (id : String) (v s f ps pf : JSVal) (pl now : Nat) (pc pm : Option JSVal)
    (st : CampaignStateMap) :
    (detectSignificantChanges id
      { ctr := .fin (mkRat 13 10), cpm := v, spend := s, frequency := f } now
      (setCampaign st id
        { ctr := .fin 2, cpm := v, spend := ps, frequency := pf
          lastChecked := pl, previousCtr := pc, previousCpm := pm })).2 = none := by
  have hctr : pctChange (JSVal.fin (mkRat 13 10)) (JSVal.fin 2) =
      JSVal.fin (-35) := by
    simp only [pctChange, JSVal.sub, JSVal.div, JSVal.mul100]
    norm_num [Rat.mkRat_eq_div]
  have hcrash : JSVal.lt (JSVal.fin (mkRat 13 10)) THRESHOLDS.ctr.average =
      false := by decide
  have hboost : JSVal.gt (JSVal.fin (-35)) 50 = false := by decide
  have hsp0 : JSVal.gt (JSVal.fin 0) 50 = false := by decide
  have hspn : JSVal.gt JSVal.nan 50 = false := rfl
  rcases pctChange_self v with hp | hp <;>
    simp [detectSignificantChanges, setCampaign, hctr, hp, hcrash, hboost,
      hsp0, hspn]

/-- C10: the percentage-change division has no zero-baseline guard. With a
stored prior CTR of 0 and a current CTR above the 1.5 good threshold, the
change evaluates to +Infinity, which satisfies > 50, so PERFORMANCE_BOOST is
emitted; with a stored prior CPM of 0 and a current CPM above 50, CPM_SPIKE
is emitted; and when prior and current are both 0 the change is NaN and no
event fires. -/
theorem detectSignificantChanges_zero_baseline_division :
    (∀ (c : ℚ) (id : String) (w s f ps pf : JSVal) (pl now : Nat)
        (pc pm : Option JSVal) (st : CampaignStateMap),
      JSVal.gt (.fin c) THRESHOLDS.ctr.good = true →
      (((detectSignificantChanges id
          { ctr := .fin c, cpm := w, spend := s, frequency := f } now
          (setCampaign st id
            { ctr := .fin 0, cpm := w, spend := ps, frequency := pf
              lastChecked := pl, previousCtr := pc, previousCpm := pm })).2.getD
          []).map ChangeEvent.type) = ["PERFORMANCE_BOOST"]) ∧
    (∀ (d : ℚ) (id : String) (w s f ps pf : JSVal) (pl now : Nat)
        (pc pm : Option JSVal) (st : CampaignStateMap),
      JSVal.gt (.fin d) THRESHOLDS.cpm.average = true →
      (((detectSignificantChanges id
          { ctr := w, cpm := .fin d, spend := s, frequency := f } now
          (setCampaign st id
            { ctr := w, cpm := .fin 0, spend := ps, frequency := pf
              lastChecked := pl, previousCtr := pc, previousCpm := pm })).2.getD
          []).map ChangeEvent.type) = ["CPM_SPIKE"]) ∧
    (∀ (id : String) (s f ps pf : JSVal) (pl now : Nat)
        (pc pm : Option JSVal) (st : CampaignStateMap),
      (detectSignificantChanges id
        { ctr := .fin 0, cpm := .fin 0, spend := s, frequency := f } now
        (setCampaign st id
          { ctr := .fin 0, cpm := .fin 0, spend := ps, frequency := pf
            lastChecked := pl, previousCtr := pc, previousCpm := pm })).2 =
        none) := by
  refine ⟨?_, ?_, ?_⟩
  · intro c id w s f ps pf pl now pc pm st hc
    have hcq : (mkRat 3 2 : ℚ) < c := by simpa [JSVal.gt, THRESHOLDS] using hc
    have hc0 : (0 : ℚ) < c := by
      rw [Rat.mkRat_eq_div] at hcq
      linarith
    have hpc : pctChange (JSVal.fin c) (JSVal.fin 0) = JSVal.inf := by
      simp [pctChange, JSVal.sub, JSVal.div, JSVal.mul100, sub_zero, hc0]
    have hcrash : JSVal.lt JSVal.inf THRESHOLDS.ctr.average = false := rfl
    have hboost : JSVal.gt JSVal.inf 50 = true := rfl
    have hsp0 : JSVal.gt (JSVal.fin 0) 50 = false := by decide
    have hspn : JSVal.gt JSVal.nan 50 = false := rfl
    have hcrash2 : JSVal.lt JSVal.inf (-30) = false := rfl
    rcases pctChange_self w with hp | hp <;>
      simp [detectSignificantChanges, setCampaign, hpc, hp, hc, hcrash,
        hboost, hsp0, hspn, hcrash2]
  · intro d id w s f ps pf pl now pc pm st hd
    have hdq : (50 : ℚ) < d := by simpa [JSVal.gt, THRESHOLDS] using hd
    have hd0 : (0 : ℚ) < d := by linarith
    have hpd : pctChange (JSVal.fin d) (JSVal.fin 0) = JSVal.inf := by
      simp [pctChange, JSVal.sub, JSVal.div, JSVal.mul100, sub_zero, hd0]
    have hspike : JSVal.gt JSVal.inf 50 = true := rfl
    have hcr0 : JSVal.lt (JSVal.fin 0) (-30) = false := by decide
    have hcrn : JSVal.lt JSVal.nan (-30) = false := rfl
    have hbo0 : JSVal.gt (JSVal.fin 0) 50 = false := by decide
    have hbon : JSVal.gt JSVal.nan 50 = false := rfl
    rcases pctChange_self w with hp | hp <;>
      simp [detectSignificantChanges, setCampaign, hpd, hp, hd, hspike, hcr0,
        hcrn, hbo0, hbon]
  · intro id s f ps pf pl now pc pm st
    have hn : pctChange (JSVal.fin 0) (JSVal.fin 0) = JSVal.nan := by
      simp [pctChange, JSVal.sub, JSVal.div, JSVal.mul100]
    simp [detectSignificantChanges, setCampaign, hn, JSVal.lt, JSVal.gt]

/-- C10 witness: the three parts of the zero-baseline claim at concrete
inputs — prior ctr 0 with current ctr 2 boosts, prior cpm 0 with current cpm
60 spikes, all-zero prior and current stays silent. -/
theorem detectSignificantChanges_zero_baseline_division_witness :
    (((detectSignificantChanges "x"
        { ctr := .fin 2, cpm := .fin 1, spend := .fin 0, frequency := .fin 0 } 1
        (setCampaign (fun _ => none) "x"
          { ctr := .fin 0, cpm := .fin 1, spend := .fin 0, frequency := .fin 0
            lastChecked := 0 })).2.getD []).map ChangeEvent.type) =
      ["PERFORMANCE_BOOST"] ∧
    (((detectSignificantChanges "y"
        { ctr := .fin 1, cpm := .fin 60, spend := .fin 0, frequency := .fin 0 } 1
        (setCampaign (fun _ => none) "y"
          { ctr := .fin 1, cpm := .fin 0, spend := .fin 0, frequency := .fin 0
            lastChecked := 0 })).2.getD []).map ChangeEvent.type) =
      ["CPM_SPIKE"] ∧
    (detectSignificantChanges "z"
        { ctr := .fin 0, cpm := .fin 0, spend := .fin 0, frequency := .fin 0 } 1
        (setCampaign (fun _ => none) "z"
          { ctr := .fin 0, cpm := .fin 0, spend := .fin 0, frequency := .fin 0
            lastChecked := 0 })).2 = none :=
  ⟨detectSignificantChanges_zero_baseline_division.1 2 "x" (.fin 1) (.fin 0)
      (.fin 0) (.fin 0) (.fin 0) 0 1 none none (fun _ => none) (by decide),
   detectSignificantChanges_zero_baseline_division.2.1 60 "y" (.fin 1) (.fin 0)
      (.fin 0) (.fin 0) (.fin 0) 0 1 none none (fun _ => none) (by decide),
   detectSignificantChanges_zero_baseline_division.2.2 "z" (.fin 0) (.fin 0)
      (.fin 0) (.fin 0) 0 1 none none (fun _ => none)⟩

/-- C4: resolving a stored, still-pending approval strictly after its
`expiresAt` yields the "Approval expired" error payload and flips the stored
approval's status to "expired" — it is not left "pending". -/
theorem processApproval_expired_transition
    (approvals : ApprovalMap) (id action : String) (now : Nat)
    (upd : String → Except String Unit) (appr : Approval)
    (hfound : approvals id = some appr)
    (hpending : appr.status = "pending")
    (hexpired : now > appr.expiresAt)
    (hid : id ≠ "")
    (haction : action = "APPROVE" ∨ action = "REJECT") :
    (processApproval approvals id action now upd).2 =
      PAOut.errExpired id appr.expiresAt ∧
    ((processApproval approvals id action now upd).2).errorField =
      some "Approval expired" ∧
    (processApproval approvals id action now upd).1 id =
      some { appr with status := "expired" } := by
  have hact : jsToUpperCase action ≠ "" := by
    rcases haction with h | h <;> subst h <;> decide
  have hcond : ¬(id = "" ∨ jsToUpperCase action = "") := by
    rintro (h | h)
    · exact hid h
    · exact hact h
  refine ⟨?_, ?_, ?_⟩ <;>
    simp [processApproval, hcond, hfound, hpending, hexpired, setCampaign,
      setApproval, PAOut.errorField]

/-- C4 witness: a concrete pending approval stored under "APR1" with expiry
100, rejected at time 101. -/
theorem processApproval_expired_transition_witness :
    (processApproval
        (fun x => if x = "APR1" then
          some { action := "PAUSE_CAMPAIGNS", data := {}, createdAt := 0
                 expiresAt := 100, status := "pending" } else none)
        "APR1" "REJECT" 101 (fun _ => Except.ok ())).2 =
      PAOut.errExpired "APR1" 100 ∧
    ((processApproval
        (fun x => if x = "APR1" then
          some { action := "PAUSE_CAMPAIGNS", data := {}, createdAt := 0
                 expiresAt := 100, status := "pending" } else none)
        "APR1" "REJECT" 101 (fun _ => Except.ok ())).2).errorField =
      some "Approval expired" ∧
    (processApproval
        (fun x => if x = "APR1" then
          some { action := "PAUSE_CAMPAIGNS", data := {}, createdAt := 0
                 expiresAt := 100, status := "pending" } else none)
        "APR1" "REJECT" 101 (fun _ => Except.ok ())).1 "APR1" =
      some { action := "PAUSE_CAMPAIGNS", data := {}, createdAt := 0
             expiresAt := 100, status := "expired" } :=
  processApproval_expired_transition _ "APR1" "REJECT" 101 _
    { action := "PAUSE_CAMPAIGNS", data := {}, createdAt := 0
      expiresAt := 100, status := "pending" }
    (by decide) rfl (by decide) (by decide) (Or.inr rfl)

/-- C5 counterexample: an unparseable string CTR is NOT analyzed as if it
were 0 — `parseFloat("abc")` is `NaN`, every threshold comparison on `NaN` is
false, so no CTR branch fires (score stays 100), whereas a CTR of 0 takes the
critical branch and its 40-point penalty. -/
theorem analyzeMetrics_unparseable_ctr_differs_from_zero :
    analyzeMetrics { ctr := .strv "abc" none } {} ≠
      analyzeMetrics { ctr := .num 0 } {} := by
  decide

/-- C5 amended, for every numeric field the analyzer reads (ctr, cpm, spend,
frequency, and the roas entry value `purchase_roas[0]?.value`): an absent
field is coerced to 0 before any threshold comparison, while an unparseable
non-empty string yields `NaN`, which fails every threshold comparison, so no
branch of that metric fires and no penalty applies — the snapshot is analyzed
exactly as one whose field sits in the no-branch band (for ctr that band is
e.g. 1 and excludes 0; for cpm, spend and frequency 0 itself fires no branch;
for roas e.g. 2, excluding 0 which is penalized as poor). No input ever
raises an error (the analyzer is a total function). -/
theorem analyzeMetrics_absent_defaults_nan_skips (s : String) (m : Metrics)
    (ctx : Ctx) :
    (analyzeMetrics { m with ctr := .absent } ctx =
       analyzeMetrics { m with ctr := .num 0 } ctx ∧
     analyzeMetrics { m with ctr := .strv s none } ctx =
       analyzeMetrics { m with ctr := .num 1 } ctx) ∧
    (analyzeMetrics { m with cpm := .absent } ctx =
       analyzeMetrics { m with cpm := .num 0 } ctx ∧
     analyzeMetrics { m with cpm := .strv s none } ctx =
       analyzeMetrics { m with cpm := .num 0 } ctx) ∧
    (analyzeMetrics { m with spend := .absent } ctx =
       analyzeMetrics { m with spend := .num 0 } ctx ∧
     analyzeMetrics { m with spend := .strv s none } ctx =
       analyzeMetrics { m with spend := .num 0 } ctx) ∧
    (analyzeMetrics { m with frequency := .absent } ctx =
       analyzeMetrics { m with frequency := .num 0 } ctx ∧
     analyzeMetrics { m with frequency := .strv s none } ctx =
       analyzeMetrics { m with frequency := .num 0 } ctx) ∧
    (analyzeMetrics { m with purchase_roas := some [.absent] } ctx =
       analyzeMetrics { m with purchase_roas := some [.num 0] } ctx ∧
     analyzeMetrics { m with purchase_roas := some [.strv s none] } ctx =
       analyzeMetrics { m with purchase_roas := some [.num 2] } ctx) :=
  ⟨⟨rfl, rfl⟩, ⟨rfl, rfl⟩, ⟨rfl, rfl⟩, ⟨rfl, rfl⟩, ⟨rfl, rfl⟩⟩

/-- C6 counterexample: at the boundary CTR of exactly 1.5 the good branch
`ctr > 1.5` does not fire, so with no other threshold breached the
recommendations list is empty — there is no scale-up recommendation, refuting
the claim for `ctr ≥ 1.5`. -/
theorem analyzeMetrics_ctr_boundary_no_scale_rec :
    (analyzeMetrics { ctr := .num (mkRat 3 2) } {}).recommendations = [] := by
  decide

/-- C6 amended: for every snapshot whose CTR is strictly above the 1.5 good
threshold, with the CPM not above 50, the frequency not above 5, and the ROAS
absent or between 1.5 and 3, `analyzeMetrics` returns a status different from
"critical" and its recommendations include the scale-up recommendation for
the CTR winner. -/
theorem analyzeMetrics_high_ctr_scale_up (m : Metrics) (ctx : Ctx)
    (hctr : m.ctr.coerce.gt THRESHOLDS.ctr.good = true)
    (hcpm : m.cpm.coerce.gt THRESHOLDS.cpm.average = false)
    (hfreq : m.frequency.coerce.gt THRESHOLDS.frequency.warning = false)
    (hroas : m.purchase_roas = none ∨
      ((((m.purchase_roas.getD []).head?.getD .absent).coerce.lt
          THRESHOLDS.roas.poor = false) ∧
       (((m.purchase_roas.getD []).head?.getD .absent).coerce.gt
          THRESHOLDS.roas.good = false))) :
    (analyzeMetrics m ctx).status ≠ "critical" ∧
    ("🎯 Excellent CTR (" ++ m.ctr.coerce.toFixed2 ++ "%) - Scale this winner") ∈
      (analyzeMetrics m ctx).recommendations := by
  have h1 : m.ctr.coerce.lt THRESHOLDS.ctr.critical = false :=
    JSVal.lt_false_of_gt hctr (by norm_num [THRESHOLDS, Rat.mkRat_eq_div])
  have h2 : m.ctr.coerce.lt THRESHOLDS.ctr.average = false :=
    JSVal.lt_false_of_gt hctr (by norm_num [THRESHOLDS, Rat.mkRat_eq_div])
  have hcpmC : m.cpm.coerce.gt THRESHOLDS.cpm.critical = false :=
    JSVal.gt_false_mono hcpm (by norm_num [THRESHOLDS])
  have hfreqC : m.frequency.coerce.gt THRESHOLDS.frequency.critical = false :=
    JSVal.gt_false_mono hfreq (by norm_num [THRESHOLDS])
  obtain ⟨hs, hsc, hrec⟩ := ctrStep_good m ctx analysisInit h1 h2 hctr
  have hRoasEq : roasStep m (frequencyStep m (cpmStep m
      (ctrStep m ctx analysisInit))) = ctrStep m ctx analysisInit := by
    rw [cpmStep_skip m _ hcpmC hcpm, frequencyStep_skip m _ hfreqC hfreq]
    rcases hroas with hp | ⟨hl, hg⟩
    · exact roasStep_none m _ hp
    · cases hps : m.purchase_roas with
      | none => exact roasStep_none m _ hps
      | some l =>
        rw [hps] at hl hg
        exact roasStep_mid m _ l hps (by simpa using hl) (by simpa using hg)
  constructor
  · show finalStatus (analyzeSteps m ctx).score (analyzeSteps m ctx).status ≠ _
    unfold analyzeSteps
    rw [hRoasEq, hsc, hs]
    decide
  · show _ ∈ (analyzeSteps m ctx).recommendations
    unfold analyzeSteps
    rw [hRoasEq, hrec]
    simp [analysisInit]

/-- C6 amended witness: concrete snapshot with CTR 2, CPM 40, frequency 2 and
no ROAS. -/
theorem analyzeMetrics_high_ctr_scale_up_witness :
    (analyzeMetrics { ctr := .num 2, cpm := .num 40, frequency := .num 2 }
        {}).status ≠ "critical" ∧
    ("🎯 Excellent CTR (" ++
        (({ ctr := .num 2, cpm := .num 40, frequency := .num 2 } :
          Metrics).ctr.coerce.toFixed2) ++ "%) - Scale this winner") ∈
      (analyzeMetrics { ctr := .num 2, cpm := .num 40, frequency := .num 2 }
        {}).recommendations :=
  analyzeMetrics_high_ctr_scale_up
    { ctr := .num 2, cpm := .num 40, frequency := .num 2 } {}
    (by decide) (by decide) (by decide) (Or.inl rfl)

/-- C9: the two-phase status computation is extensionally a single-phase
function of the final score alone — "critical" below 40, "poor" on [40,60),
"needs_improvement" on [60,80), "optimal" on [80,95), "excellent" from 95 up.
The provisional CTR statuses never survive: each status-setting CTR branch
deducts at least 25 points, pinning the final score below 80. -/
theorem analyzeMetrics_status_pure_function_of_score (m : Metrics) (ctx : Ctx) :
    (analyzeMetrics m ctx).status =
      specStatusOfScore (analyzeMetrics m ctx).score := by
  have h := analyzeSteps_cases m ctx
  show finalStatus (analyzeSteps m ctx).score (analyzeSteps m ctx).status =
    specStatusOfScore (analyzeSteps m ctx).score
  unfold finalStatus specStatusOfScore
  rcases h with h | h
  · split_ifs <;> first | rfl | exact h | omega
  · split_ifs <;> first | rfl | omega

end FacebookMcp
